import Mathlib

/-!
Verification of the JWT authentication core of the micro_service repository:
token issuance (JwtHandler.create_token_pair), verification
(JwtHandler.decode_token), refresh (JwtHandler.refresh_token), the
authentication middleware (AuthMiddleware.dispatch) and the role guard
(RoleDepends.require_role).

The repository delegates the wire-level JWT encoding, signature checking and
expiry validation to the external python-jose library, whose source is not
part of the repository. Those parts are modelled from the spec (section 4.1
TokenCodec and the expiry rule of section 4.3); every definition carrying such
a model says so in its doc comment. Everything else is translated directly
from the Python source under src/.

Time is modelled explicitly: each call of JwtHandler._now_timestamp in the
source becomes one explicit Nat argument (a Unix timestamp in seconds). In
particular create_token_pair takes two clock samples, because the source
calls _now_timestamp once inside each of its two _create_token calls.
-/

/-- The open string-keyed mapping stored in the `extra` claim
(Python `Dict[str, Any]`), modelled as an association list with string
values: the token core treats the values opaquely and the only consumer in
scope (the role guard) compares them against role strings. -/
abbrev Extra := List (String × String)

/-- JwtConfig (src/common/utils/jwt/JwtConfig.py): secret key, algorithm,
access-token lifetime in minutes, refresh-token lifetime in days. -/
structure JwtConfig where
  secret_key : String
  algorithm : String
  access_token_expire_minutes : Nat
  refresh_token_expire_days : Nat
deriving DecidableEq, Repr

/-- JwtPayload (src/common/utils/jwt/JwtPayload.py): sub, exp, iat,
token_type and the optional extra mapping (pydantic default None). -/
structure JwtPayload where
  sub : String
  exp : Nat
  iat : Nat
  token_type : String
  extra : Option Extra
deriving DecidableEq, Repr

/-- Modelled from the spec: the space of token strings as seen by the codec
of section 4.1. A wire string is either a well-formed token whose signature
is consistent with its payload under some signing secret and algorithm
(`signed`), a parseable token whose content was altered after signing so the
signature no longer matches (`tampered`), or a string that cannot be parsed
into the expected structure at all (`garbage`). python-jose, which realises
this codec in the source, is not part of the repository. -/
inductive TokenStr where
  | signed (p : JwtPayload) (secret : String) (alg : String)
  | tampered (p : JwtPayload) (secret : String) (alg : String)
  | garbage (s : String)
deriving DecidableEq, Repr

/-- JwtTokenPair (src/common/utils/jwt/JwtTokenPair.py): the issued pair.
The source leaves token_type to its pydantic default "Bearer". -/
structure JwtTokenPair where
  access_token : TokenStr
  refresh_token : TokenStr
  token_type : String
  expires_in : Nat
deriving DecidableEq, Repr

/-- Modelled from the spec: the two decode failure kinds of section 4.1,
SignatureInvalid (tampering, wrong secret, or algorithm mismatch) and
MalformedToken (string cannot be parsed into the expected structure). -/
inductive DecodeError where
  | SignatureInvalid
  | MalformedToken
deriving DecidableEq, Repr

/-- Modelled from the spec: TokenCodec.decode of section 4.1. Parses the
string and verifies the signature: a signature is valid exactly when the
token is untampered and was signed with the configured secret under the
configured algorithm (an algorithm mismatch is SignatureInvalid, the
algorithm-confusion defense); an unparsable string is MalformedToken. -/
def codec_decode (cfg : JwtConfig) (t : TokenStr) : Except DecodeError JwtPayload :=
  match t with
  | .signed p secret alg =>
      if secret = cfg.secret_key ∧ alg = cfg.algorithm then .ok p
      else .error .SignatureInvalid
  | .tampered _ _ _ => .error .SignatureInvalid
  | .garbage _ => .error .MalformedToken

/-- Modelled from the spec: TokenCodec.encode of section 4.1 — jose
jwt.encode(payload, secret, algorithm) produces a well-formed token signed
with that secret and algorithm. -/
def jose_jwt_encode (cfg : JwtConfig) (p : JwtPayload) : TokenStr :=
  TokenStr.signed p cfg.secret_key cfg.algorithm

/-- Outcome of jose jwt.decode as the source observes it: the decoded claims,
or ExpiredSignatureError, or any other JWTError. -/
inductive JoseResult where
  | ok (p : JwtPayload)
  | expiredSignature
  | jwtError
deriving DecidableEq, Repr

/-- Modelled from the spec: jose jwt.decode(token, secret, algorithms=[alg])
as called by JwtHandler.decode_token. It verifies structure and signature
(any failure is a JWTError) and then validates the exp claim against the
current time; per section 4.3 the expiry rule is: current time ≥ expires_at
fails with ExpiredSignatureError, so a token is expired at the exact expiry
instant. -/
def jose_jwt_decode (cfg : JwtConfig) (now : Nat) (t : TokenStr) : JoseResult :=
  match codec_decode cfg t with
  | .error _ => .jwtError
  | .ok p => if p.exp ≤ now then .expiredSignature else .ok p

/-- The two exception classes raised by JwtHandler
(src/common/utils/jwt/JwtHandler.py): TokenExpiredError and
TokenInvalidError. -/
inductive TokenError where
  | TokenExpiredError
  | TokenInvalidError
deriving DecidableEq, Repr

/-- JwtHandler._create_token (src/common/utils/jwt/JwtHandler.py lines
85-110). `now` is the clock sample this call takes itself via
_now_timestamp(). The payload stores Python `extra or` the empty dict: an
absent (or empty, which is the same value) extra is normalized to the empty
mapping at encode time. -/
def _create_token (cfg : JwtConfig) (now : Nat) (user_id : String)
    (token_type : String) (expire_seconds : Nat) (extra : Option Extra) : TokenStr :=
  jose_jwt_encode cfg
    { sub := user_id
      iat := now
      exp := now + expire_seconds
      token_type := token_type
      extra := some (extra.getD []) }

/-- JwtHandler.create_token_pair (lines 112-140). The source calls
_create_token twice and each call samples the clock on its own, so the model
takes one timestamp per token: `now_access` for the access token and
`now_refresh` for the refresh token. -/
def create_token_pair (cfg : JwtConfig) (now_access now_refresh : Nat)
    (user_id : String) (extra : Option Extra) : JwtTokenPair :=
  let access_expire_seconds := cfg.access_token_expire_minutes * 60
  let refresh_expire_seconds := cfg.refresh_token_expire_days * 24 * 3600
  let access_token := _create_token cfg now_access user_id "access" access_expire_seconds extra
  let refresh_token := _create_token cfg now_refresh user_id "refresh" refresh_expire_seconds extra
  { access_token := access_token
    refresh_token := refresh_token
    token_type := "Bearer"
    expires_in := access_expire_seconds }

/-- JwtHandler.decode_token (lines 142-171): jose decode, with
ExpiredSignatureError translated to TokenExpiredError and every other
JWTError to TokenInvalidError; then the token_type claim must equal
expected_type or the token is TokenInvalidError. `now` is the clock sample
the embedded jose decode takes during this call. -/
def decode_token (cfg : JwtConfig) (now : Nat) (token : TokenStr)
    (expected_type : String) : Except TokenError JwtPayload :=
  match jose_jwt_decode cfg now token with
  | .expiredSignature => .error .TokenExpiredError
  | .jwtError => .error .TokenInvalidError
  | .ok raw =>
      if raw.token_type ≠ expected_type then .error .TokenInvalidError
      else .ok raw

/-- JwtHandler.refresh_token (lines 173-192): verify the token as a refresh
token (propagating both error kinds unchanged), then issue a fresh pair for
the same subject and extra. `now_verify` is the clock sample of the decode
and `now_access`, `now_refresh` those of the two _create_token calls inside
create_token_pair. -/
def refresh_token (cfg : JwtConfig) (now_verify now_access now_refresh : Nat)
    (tok : TokenStr) : Except TokenError JwtTokenPair :=
  match decode_token cfg now_verify tok "refresh" with
  | .error e => .error e
  | .ok payload => .ok (create_token_pair cfg now_access now_refresh payload.sub payload.extra)

/-- Python str.startswith(pre): the character sequence of pre is a prefix of
the character sequence of s, case-sensitive and literal. -/
def str_startswith (s pre : String) : Bool :=
  pre.data.isPrefixOf s.data

/-- Python slicing s[n:]: drop the first n characters. -/
def str_drop (s : String) (n : Nat) : String :=
  String.mk (s.data.drop n)

/-- WHITELIST (src/account_service/middleware/AuthMiddleware.py): the paths
that bypass authentication, matched by string prefix. -/
def WHITELIST : List String :=
  [ "/api/account/user/login"
  , "/api/account/user/register"
  , "/api/account/user/login/verify_code"
  , "/api/account/user/register/verify_code"
  , "/docs"
  , "/openapi.json"
  , "/health" ]

/-- The JSON body of the 401 responses built inline by AuthMiddleware:
a code field and a message field. -/
structure JSONContent where
  code : Nat
  message : String
deriving DecidableEq, Repr

/-- Outcome of the call `jwt_handler.decode_token(token)` as observed by the
try/except of AuthMiddleware.dispatch: a payload, one of the two exception
classes it names, or any other exception (errOther) that the gate does not
handle. -/
inductive VerifyOutcome where
  | ok (p : JwtPayload)
  | errExpired
  | errInvalid
  | errOther (e : String)
deriving DecidableEq, Repr

/-- Result of AuthMiddleware.dispatch for one request: `next injected` is
`await call_next(request)` (with `injected = some (user_id, user_extra)`
when the gate wrote those into request.state first, `none` on the whitelist
path where it did not), `response` is a JSONResponse with a status code and
body, and `uncaught e` is an exception escaping dispatch unhandled. -/
inductive GateResult where
  | next (injected : Option (String × Option Extra))
  | response (status_code : Nat) (content : JSONContent)
  | uncaught (e : String)
deriving DecidableEq, Repr

/-- AuthMiddleware.dispatch (src/account_service/middleware/AuthMiddleware.py
lines 44-66). `verify` abstracts `jwt_handler.decode_token`: the try block
catches exactly TokenExpiredError and TokenInvalidError, so an errOther
outcome escapes uncaught. The Authorization header check is Python
`not auth_header or not auth_header.startswith("Bearer ")` (an empty string
is falsy and also fails startswith, so matching on startswith alone is
equivalent); the token is `auth_header[7:]`. -/
def dispatch (verify : String → VerifyOutcome) (path : String)
    (auth_header : Option String) : GateResult :=
  if WHITELIST.any (fun w => str_startswith path w) then
    .next none
  else
    match auth_header with
    | none => .response 401 { code := 401, message := "缺少认证 Token" }
    | some h =>
        if ¬ str_startswith h "Bearer " then
          .response 401 { code := 401, message := "缺少认证 Token" }
        else
          match verify (str_drop h 7) with
          | .ok payload => .next (some (payload.sub, payload.extra))
          | .errExpired => .response 401 { code := 401, message := "Token 已过期" }
          | .errInvalid => .response 401 { code := 401, message := "Token 无效" }
          | .errOther e => .uncaught e

/-- The decode_token of this file packaged as a VerifyOutcome classifier, as
AuthMiddleware uses it: expected_type defaults to "access" in the source and
the middleware passes no other value. decode_token never raises anything
beyond its two error classes, so errOther is unreachable here. -/
def gate_verify (cfg : JwtConfig) (now : Nat) (tok : String → TokenStr)
    (s : String) : VerifyOutcome :=
  match decode_token cfg now (tok s) "access" with
  | .ok p => .ok p
  | .error .TokenExpiredError => .errExpired
  | .error .TokenInvalidError => .errInvalid

/-- HTTPException as raised by RoleDepends.require_role: a status code and a
detail string. -/
structure HttpException where
  status_code : Nat
  detail : String
deriving DecidableEq, Repr

/-- Python dict.get on the extra mapping: the value at the first matching
key, if any. -/
def dict_get (d : Extra) (k : String) : Option String :=
  (d.find? (fun kv => kv.1 == k)).map (fun kv => kv.2)

/-- Python membership `role in roles` where role came from dict.get and may
be None: None is never a member of a tuple of strings. -/
def role_mem (role : Option String) (roles : List String) : Bool :=
  match role with
  | none => false
  | some r => roles.contains r

/-- The check closed over by RoleDepends.require_role
(src/account_service/middleware/RoleDepends.py lines 26-40): read
request.state.user_extra (absent attribute modelled as none, and
the Python `or` fallback turns a missing or empty mapping into the empty
mapping),
take its "role" value, and raise HTTPException(403, "权限不足") unless that
value is one of the allowed roles. -/
def require_role (roles : List String) (user_extra : Option Extra) :
    Except HttpException Unit :=
  let extra := user_extra.getD []
  let role := dict_get extra "role"
  if ¬ role_mem role roles then .error { status_code := 403, detail := "权限不足" }
  else .ok ()

/-- A concrete configuration for concrete instances: the defaults of
JwtConfig (HS256, 30 minutes, 7 days) with a sample secret. -/
def cfgA : JwtConfig :=
  { secret_key := "secret"
    algorithm := "HS256"
    access_token_expire_minutes := 30
    refresh_token_expire_days := 7 }

/-- A concrete access payload expiring at time 1000. -/
def payloadA : JwtPayload :=
  { sub := "42", exp := 1000, iat := 999, token_type := "access", extra := some [] }

/-- A concrete access payload carrying business data in extra. -/
def payloadB : JwtPayload :=
  { sub := "7", exp := 5000, iat := 4000, token_type := "access"
    extra := some [("role", "admin"), ("username", "foo")] }

/-- A concrete refresh payload. -/
def payloadR : JwtPayload :=
  { sub := "42", exp := 2000, iat := 1000, token_type := "refresh"
    extra := some [("role", "admin")] }

/-- A concrete well-signed refresh token issued at 1000, expiring at 2000. -/
def refreshTokA : TokenStr :=
  jose_jwt_encode cfgA
    { sub := "42", exp := 2000, iat := 1000, token_type := "refresh", extra := some [] }

/-- A concrete well-signed refresh token whose extra claim is None (as a
hand-crafted token may carry, since the pydantic default is None). -/
def refreshTokB : TokenStr :=
  jose_jwt_encode cfgA
    { sub := "9", exp := 2000, iat := 500, token_type := "refresh", extra := none }

/-- A concrete verification outcome classifier for gate instances. -/
def verifyW : String → VerifyOutcome := fun s =>
  if s = "E" then .errExpired
  else if s = "I" then .errInvalid
  else if s = "X" then .errOther "boom"
  else .ok payloadB

/-- The decode_token of this file raises only its two error classes, so the
classifier built on it never produces an errOther outcome: within this
repository only a non-token exception could escape the gate uncaught. -/
theorem gate_verify_ne_errOther (cfg : JwtConfig) (now : Nat)
    (tok : String → TokenStr) (s : String) (e : String) :
    gate_verify cfg now tok s ≠ .errOther e := by
  unfold gate_verify
  split <;> simp

/-- Claim C1: with a valid signature and matching token_type, verification
at the exact expiry instant (current time equal to expires_at) fails with
TokenExpiredError, and verification one second before expiry (expires_at
equal to current time plus one) succeeds. The boundary is the
greater-or-equal expiry rule modelled from the spec in jose_jwt_decode. -/
theorem C1_expiry_boundary (cfg : JwtConfig) (p : JwtPayload) (ty : String)
    (hty : p.token_type = ty) :
    decode_token cfg p.exp (jose_jwt_encode cfg p) ty = .error .TokenExpiredError
    ∧ ∀ now : Nat, p.exp = now + 1 →
        decode_token cfg now (jose_jwt_encode cfg p) ty = .ok p := by
  constructor
  · simp [decode_token, jose_jwt_decode, codec_decode, jose_jwt_encode]
  · intro now h
    have hx : ¬ (p.exp ≤ now) := by omega
    simp [decode_token, jose_jwt_decode, codec_decode, jose_jwt_encode, hx, hty]

/-- Concrete instance of C1_expiry_boundary. -/
theorem C1_witness :
    decode_token cfgA 1000 (jose_jwt_encode cfgA payloadA) "access"
      = .error .TokenExpiredError
    ∧ decode_token cfgA 999 (jose_jwt_encode cfgA payloadA) "access" = .ok payloadA := by
  have h := C1_expiry_boundary cfgA payloadA "access" rfl
  exact ⟨h.1, h.2 999 rfl⟩

/-- Claim C2: every decode failure — SignatureInvalid (tampering, wrong
secret, wrong algorithm) as well as MalformedToken (unparsable string) —
surfaces from decode_token as TokenInvalidError, never as any other
error. -/
theorem C2_decode_failure_invalid (cfg : JwtConfig) (now : Nat) (t : TokenStr)
    (ty : String) (e : DecodeError) (h : codec_decode cfg t = .error e) :
    decode_token cfg now t ty = .error .TokenInvalidError := by
  simp [decode_token, jose_jwt_decode, h]

/-- Concrete instance of C2_decode_failure_invalid: a malformed string and a
token signed with a wrong secret both decode to TokenInvalidError. -/
theorem C2_witness :
    decode_token cfgA 0 (TokenStr.garbage "not-a-jwt") "access"
      = .error .TokenInvalidError
    ∧ decode_token cfgA 0 (TokenStr.signed payloadA "wrong" "HS256") "access"
      = .error .TokenInvalidError :=
  ⟨C2_decode_failure_invalid cfgA 0 (TokenStr.garbage "not-a-jwt") "access"
      .MalformedToken rfl,
   C2_decode_failure_invalid cfgA 0 (TokenStr.signed payloadA "wrong" "HS256") "access"
      .SignatureInvalid (by simp [codec_decode, cfgA])⟩

/-- Claim C3: for a correctly signed, unexpired token, a token_type
different from the expected type fails with TokenInvalidError, and a
matching token_type passes the type check and returns the payload. -/
theorem C3_type_enforcement (cfg : JwtConfig) (p : JwtPayload) (now : Nat)
    (expected : String) (hnow : now < p.exp) :
    (p.token_type ≠ expected →
      decode_token cfg now (jose_jwt_encode cfg p) expected = .error .TokenInvalidError)
    ∧ (p.token_type = expected →
      decode_token cfg now (jose_jwt_encode cfg p) expected = .ok p) := by
  have hx : ¬ (p.exp ≤ now) := by omega
  constructor
  · intro hne
    simp [decode_token, jose_jwt_decode, codec_decode, jose_jwt_encode, hx, hne]
  · intro heq
    simp [decode_token, jose_jwt_decode, codec_decode, jose_jwt_encode, hx, heq]

/-- Concrete instance of C3_type_enforcement: a refresh token verified as
access is rejected, and verified as refresh it is accepted. -/
theorem C3_witness :
    decode_token cfgA 1500 (jose_jwt_encode cfgA payloadR) "access"
      = .error .TokenInvalidError
    ∧ decode_token cfgA 1500 (jose_jwt_encode cfgA payloadR) "refresh" = .ok payloadR :=
  ⟨(C3_type_enforcement cfgA payloadR 1500 "access" (by decide)).1 (by decide),
   (C3_type_enforcement cfgA payloadR 1500 "refresh" (by decide)).2 rfl⟩

/-- Claim C6: encoding any payload and decoding the resulting token with the
same configuration, before expiry and with the matching expected type,
returns exactly the original payload — subject, token_type, extra and both
timestamps preserved. -/
theorem C6_round_trip (cfg : JwtConfig) (p : JwtPayload) (now : Nat)
    (hsub : p.sub ≠ "") (hexp : now < p.exp) :
    decode_token cfg now (jose_jwt_encode cfg p) p.token_type = .ok p := by
  have hx : ¬ (p.exp ≤ now) := by omega
  simp [decode_token, jose_jwt_decode, codec_decode, jose_jwt_encode, hx]

/-- Concrete instance of C6_round_trip. -/
theorem C6_witness :
    decode_token cfgA 4500 (jose_jwt_encode cfgA payloadB) "access" = .ok payloadB :=
  C6_round_trip cfgA payloadB 4500 (by decide) (by decide)

/-- Claim C10: every token issued by create_token_pair carries extra as
some mapping — the mapping passed in, or the empty mapping when extra was
omitted (None) — so the decoded extra of an issued token is never None. -/
theorem C10_extra_never_none (cfg : JwtConfig) (t1 t2 : Nat) (uid : String)
    (extra : Option Extra) :
    codec_decode cfg (create_token_pair cfg t1 t2 uid extra).access_token
      = .ok { sub := uid, exp := t1 + cfg.access_token_expire_minutes * 60, iat := t1,
              token_type := "access", extra := some (extra.getD []) }
    ∧ codec_decode cfg (create_token_pair cfg t1 t2 uid extra).refresh_token
      = .ok { sub := uid, exp := t2 + cfg.refresh_token_expire_days * 24 * 3600, iat := t2,
              token_type := "refresh", extra := some (extra.getD []) }
    ∧ (some (extra.getD []) : Option Extra) ≠ none := by
  refine ⟨?_, ?_, by simp⟩
  · simp [create_token_pair, _create_token, jose_jwt_encode, codec_decode]
  · simp [create_token_pair, _create_token, jose_jwt_encode, codec_decode]

/-- Concrete instance of C10_extra_never_none at extra omitted (None). -/
theorem C10_witness :
    codec_decode cfgA (create_token_pair cfgA 1000 1000 "5" none).access_token
      = .ok { sub := "5", exp := 1000 + cfgA.access_token_expire_minutes * 60, iat := 1000,
              token_type := "access", extra := some ((none : Option Extra).getD []) }
    ∧ codec_decode cfgA (create_token_pair cfgA 1000 1000 "5" none).refresh_token
      = .ok { sub := "5", exp := 1000 + cfgA.refresh_token_expire_days * 24 * 3600, iat := 1000,
              token_type := "refresh", extra := some ((none : Option Extra).getD []) }
    ∧ (some ((none : Option Extra).getD []) : Option Extra) ≠ none :=
  C10_extra_never_none cfgA 1000 1000 "5" none

/-- Claim C4 as stated is false on the code. First, a refresh token that
verifies successfully at time 1000 (it was issued at 1000 and expires at
2000) is refreshed when every clock sample still reads 1000: the new access
token carries issued_at 1000, equal to — not strictly later than — the
original issued_at. Second, a valid refresh token whose extra claim is None
yields a new access token whose extra is the empty mapping, not None, so
the extra mapping is not carried over identically in that case either. -/
theorem C4_counterexample :
    decode_token cfgA 1000 refreshTokA "refresh"
      = .ok { sub := "42", exp := 2000, iat := 1000, token_type := "refresh",
              extra := some [] }
    ∧ refresh_token cfgA 1000 1000 1000 refreshTokA
      = .ok (create_token_pair cfgA 1000 1000 "42" (some []))
    ∧ codec_decode cfgA (create_token_pair cfgA 1000 1000 "42" (some [])).access_token
      = .ok { sub := "42", exp := 2800, iat := 1000, token_type := "access",
              extra := some [] }
    ∧ ¬ ((1000 : Nat) < 1000)
    ∧ decode_token cfgA 1000 refreshTokB "refresh"
      = .ok { sub := "9", exp := 2000, iat := 500, token_type := "refresh",
              extra := none }
    ∧ refresh_token cfgA 1000 1500 1500 refreshTokB
      = .ok (create_token_pair cfgA 1500 1500 "9" none)
    ∧ codec_decode cfgA (create_token_pair cfgA 1500 1500 "9" none).access_token
      = .ok { sub := "9", exp := 3300, iat := 1500, token_type := "access",
              extra := some [] }
    ∧ (some ([] : Extra)) ≠ (none : Option Extra) := by
  refine ⟨?_, ?_, ?_, by decide, ?_, ?_, ?_, by simp⟩ <;>
    simp [decode_token, jose_jwt_decode, codec_decode, jose_jwt_encode,
      refresh_token, create_token_pair, _create_token, refreshTokA, refreshTokB, cfgA]

/-- Claim C4, amended: refresh_token propagates both verification failures
unchanged; on a successfully verified refresh token it issues a new pair for
the original subject and extra, whose access token decodes to a payload with
the same subject, with extra equal to the original extra whenever that was
present (an absent extra is normalized to the empty mapping), and with
issued_at equal to the clock sample taken when the new access token is
created — strictly later than the original issued_at exactly when that
sample is strictly later (the code itself does not force the new sample past
the original issuance time). -/
theorem C4_refresh (cfg : JwtConfig) (tok : TokenStr) (n0 t1 t2 : Nat) :
    (∀ p, decode_token cfg n0 tok "refresh" = .ok p →
      ∃ np,
        refresh_token cfg n0 t1 t2 tok = .ok (create_token_pair cfg t1 t2 p.sub p.extra)
        ∧ codec_decode cfg (create_token_pair cfg t1 t2 p.sub p.extra).access_token
            = .ok np
        ∧ np.sub = p.sub
        ∧ np.extra = some (p.extra.getD [])
        ∧ (∀ d, p.extra = some d → np.extra = p.extra)
        ∧ np.iat = t1
        ∧ (p.iat < t1 → p.iat < np.iat))
    ∧ (∀ e, decode_token cfg n0 tok "refresh" = .error e →
        refresh_token cfg n0 t1 t2 tok = .error e) := by
  constructor
  · intro p hp
    refine ⟨{ sub := p.sub, exp := t1 + cfg.access_token_expire_minutes * 60, iat := t1,
              token_type := "access", extra := some (p.extra.getD []) },
            ?_, ?_, rfl, rfl, ?_, rfl, fun h => h⟩
    · simp [refresh_token, hp]
    · simp [create_token_pair, _create_token, jose_jwt_encode, codec_decode]
    · intro d hd
      simp [hd]
  · intro e he
    simp [refresh_token, he]

/-- Concrete instance of C4_refresh: refreshing a token issued at 1000 with
clock samples at 1300 preserves subject and extra and stamps issued_at
1300, strictly later than 1000. -/
theorem C4_witness :
    ∃ np,
      refresh_token cfgA 1200 1300 1300 refreshTokA
        = .ok (create_token_pair cfgA 1300 1300 "42" (some []))
      ∧ codec_decode cfgA (create_token_pair cfgA 1300 1300 "42" (some [])).access_token
          = .ok np
      ∧ np.sub = "42"
      ∧ np.extra = some ((some ([] : Extra)).getD [])
      ∧ (∀ d, (some ([] : Extra)) = some d → np.extra = some ([] : Extra))
      ∧ np.iat = 1300
      ∧ ((1000 : Nat) < 1300 → 1000 < np.iat) :=
  (C4_refresh cfgA refreshTokA 1200 1300 1300).1
    { sub := "42", exp := 2000, iat := 1000, token_type := "refresh", extra := some [] }
    (by simp [decode_token, jose_jwt_decode, codec_decode, jose_jwt_encode,
      refreshTokA, cfgA])

/-- Claim C5 as stated is false on the code: create_token_pair does not
capture a single issued_at — each of its two _create_token calls samples the
clock itself. In the concrete execution where the clock reads 1000 at the
access-token creation and 1001 at the refresh-token creation, the two
payloads carry different issued_at values. -/
theorem C5_counterexample :
    codec_decode cfgA (create_token_pair cfgA 1000 1001 "1" none).access_token
      = .ok { sub := "1", exp := 2800, iat := 1000, token_type := "access",
              extra := some [] }
    ∧ codec_decode cfgA (create_token_pair cfgA 1000 1001 "1" none).refresh_token
      = .ok { sub := "1", exp := 605801, iat := 1001, token_type := "refresh",
              extra := some [] }
    ∧ (1000 : Nat) ≠ 1001 := by
  refine ⟨?_, ?_, by decide⟩ <;>
    simp [create_token_pair, _create_token, jose_jwt_encode, codec_decode, cfgA]

/-- Claim C5, amended: each payload of an issued pair carries as issued_at
the clock sample taken at its own creation; the two coincide whenever the
clock did not advance between the two samples (the typical same-second
case). Whenever the configured access lifetime in seconds is less than the
configured refresh lifetime and the refresh-token sample is not earlier than
the access-token sample, the access expires_at is strictly less than the
refresh expires_at. -/
theorem C5_issue_pair (cfg : JwtConfig) (t1 t2 : Nat) (uid : String)
    (extra : Option Extra)
    (hlt : cfg.access_token_expire_minutes * 60
            < cfg.refresh_token_expire_days * 24 * 3600)
    (hle : t1 ≤ t2) :
    ∃ pa pr,
      codec_decode cfg (create_token_pair cfg t1 t2 uid extra).access_token = .ok pa
      ∧ codec_decode cfg (create_token_pair cfg t1 t2 uid extra).refresh_token = .ok pr
      ∧ pa.iat = t1 ∧ pr.iat = t2 ∧ (t1 = t2 → pa.iat = pr.iat)
      ∧ pa.exp < pr.exp := by
  refine ⟨{ sub := uid, exp := t1 + cfg.access_token_expire_minutes * 60, iat := t1,
            token_type := "access", extra := some (extra.getD []) },
          { sub := uid, exp := t2 + cfg.refresh_token_expire_days * 24 * 3600, iat := t2,
            token_type := "refresh", extra := some (extra.getD []) },
          ?_, ?_, rfl, rfl, fun h => by simp [h], ?_⟩
  · simp [create_token_pair, _create_token, jose_jwt_encode, codec_decode]
  · simp [create_token_pair, _create_token, jose_jwt_encode, codec_decode]
  · show t1 + cfg.access_token_expire_minutes * 60
        < t2 + cfg.refresh_token_expire_days * 24 * 3600
    omega

/-- Concrete instance of C5_issue_pair: both samples at 1000 under the
default lifetimes give identical issued_at and a strictly smaller access
expiry. -/
theorem C5_witness :
    ∃ pa pr,
      codec_decode cfgA (create_token_pair cfgA 1000 1000 "1" none).access_token = .ok pa
      ∧ codec_decode cfgA (create_token_pair cfgA 1000 1000 "1" none).refresh_token = .ok pr
      ∧ pa.iat = 1000 ∧ pr.iat = 1000 ∧ ((1000 : Nat) = 1000 → pa.iat = pr.iat)
      ∧ pa.exp < pr.exp :=
  C5_issue_pair cfgA 1000 1000 "1" none (by decide) (by decide)

/-- Claim C7: on a path outside the allow-list the gate produces exactly
three authentication-failure branches, each a 401 JSONResponse whose body
carries code 401 and the branch message — a missing or non-Bearer
Authorization header gives the missing-token message, a TokenExpiredError
outcome gives the expired message, a TokenInvalidError outcome gives the
invalid message — a verified payload is passed through with the identity
injected, and any other exception raised during verification is not caught
by the gate and escapes dispatch. -/
theorem C7_gate_branches (verify : String → VerifyOutcome) (path : String)
    (hw : WHITELIST.any (fun w => str_startswith path w) = false) :
    (dispatch verify path none
      = .response 401 { code := 401, message := "缺少认证 Token" })
    ∧ (∀ h, str_startswith h "Bearer " = false →
        dispatch verify path (some h)
          = .response 401 { code := 401, message := "缺少认证 Token" })
    ∧ (∀ h, str_startswith h "Bearer " = true →
        (verify (str_drop h 7) = .errExpired →
          dispatch verify path (some h)
            = .response 401 { code := 401, message := "Token 已过期" })
        ∧ (verify (str_drop h 7) = .errInvalid →
          dispatch verify path (some h)
            = .response 401 { code := 401, message := "Token 无效" })
        ∧ (∀ p, verify (str_drop h 7) = .ok p →
          dispatch verify path (some h) = .next (some (p.sub, p.extra)))
        ∧ (∀ e, verify (str_drop h 7) = .errOther e →
          dispatch verify path (some h) = .uncaught e)) := by
  refine ⟨by simp [dispatch, hw], fun h hb => by simp [dispatch, hw, hb], fun h hb => ?_⟩
  exact ⟨fun hv => by simp [dispatch, hw, hb, hv],
         fun hv => by simp [dispatch, hw, hb, hv],
         fun p hv => by simp [dispatch, hw, hb, hv],
         fun e hv => by simp [dispatch, hw, hb, hv]⟩

/-- Concrete instance of C7_gate_branches on a non-allow-listed path, one
application per branch, including an uncaught non-token exception. -/
theorem C7_witness :
    dispatch verifyW "/api/account/category" none
      = .response 401 { code := 401, message := "缺少认证 Token" }
    ∧ dispatch verifyW "/api/account/category" (some "Token abc")
      = .response 401 { code := 401, message := "缺少认证 Token" }
    ∧ dispatch verifyW "/api/account/category" (some "Bearer E")
      = .response 401 { code := 401, message := "Token 已过期" }
    ∧ dispatch verifyW "/api/account/category" (some "Bearer I")
      = .response 401 { code := 401, message := "Token 无效" }
    ∧ dispatch verifyW "/api/account/category" (some "Bearer X") = .uncaught "boom" := by
  have h := C7_gate_branches verifyW "/api/account/category" (by decide)
  exact ⟨h.1,
         h.2.1 "Token abc" (by decide),
         (h.2.2 "Bearer E" (by decide)).1 (by decide),
         (h.2.2 "Bearer I" (by decide)).2.1 (by decide),
         (h.2.2 "Bearer X" (by decide)).2.2.2 "boom" (by decide)⟩

/-- Claim C8: a request whose path starts with one of the configured
allow-list prefixes passes through the gate regardless of its Authorization
header; on any other path a request whose Authorization header is absent, or
present but not starting with the literal prefix "Bearer ", is rejected with
a 401 missing-token response. -/
theorem C8_allow_list (verify : String → VerifyOutcome) (path : String)
    (ah : Option String) :
    ((∃ w, w ∈ WHITELIST ∧ str_startswith path w = true) →
      dispatch verify path ah = .next none)
    ∧ (WHITELIST.any (fun w => str_startswith path w) = false →
        (ah = none ∨ ∃ s, ah = some s ∧ str_startswith s "Bearer " = false) →
        dispatch verify path ah
          = .response 401 { code := 401, message := "缺少认证 Token" }) := by
  constructor
  · rintro ⟨w, hw, hsw⟩
    have hany : WHITELIST.any (fun w => str_startswith path w) = true :=
      List.any_eq_true.mpr ⟨w, hw, hsw⟩
    simp [dispatch, hany]
  · rintro hw (rfl | ⟨s, rfl, hs⟩)
    · simp [dispatch, hw]
    · simp [dispatch, hw, hs]

/-- Concrete instance of C8_allow_list: a health-check sub-path passes with
no header, and a non-allow-listed path with a non-Bearer header is rejected
with the missing-token message. -/
theorem C8_witness :
    dispatch verifyW "/health/live" none = .next none
    ∧ dispatch verifyW "/api/account/asset" (some "Basic abc")
      = .response 401 { code := 401, message := "缺少认证 Token" } :=
  ⟨(C8_allow_list verifyW "/health/live" none).1 ⟨"/health", by decide, by decide⟩,
   (C8_allow_list verifyW "/api/account/asset" (some "Basic abc")).2 (by decide)
     (Or.inr ⟨"Basic abc", rfl, by decide⟩)⟩

/-- Claim C9: a guard built by require_role passes exactly when the injected
extra mapping carries a "role" value that is a member of the allowed roles
(set membership, any one match suffices); when the key is absent or its
value is outside the set, it fails with HTTPException 403 "权限不足". -/
theorem C9_require_role (roles : List String) (ue : Option Extra) :
    (require_role roles ue = .ok () ↔
      ∃ r, dict_get (ue.getD []) "role" = some r ∧ r ∈ roles)
    ∧ (require_role roles ue = .ok ()
       ∨ require_role roles ue = .error { status_code := 403, detail := "权限不足" }) := by
  have key : role_mem (dict_get (ue.getD []) "role") roles = true ↔
      ∃ r, dict_get (ue.getD []) "role" = some r ∧ r ∈ roles := by
    cases hr : dict_get (ue.getD []) "role" with
    | none => simp [role_mem]
    | some r => simp [role_mem, List.elem_iff]
  constructor
  · rw [← key]
    unfold require_role
    by_cases hb : role_mem (dict_get (ue.getD []) "role") roles = true
    · simp [hb]
    · simp [hb]
  · unfold require_role
    by_cases hb : role_mem (dict_get (ue.getD []) "role") roles = true
    · simp [hb]
    · simp [hb]

/-- Concrete instance of C9_require_role, the spec example: role level_1
against allowed set (admin) is rejected with 403, and against allowed set
(admin, level_1) it passes. -/
theorem C9_witness :
    require_role ["admin"] (some [("role", "level_1")])
      = .error { status_code := 403, detail := "权限不足" }
    ∧ require_role ["admin", "level_1"] (some [("role", "level_1")]) = .ok () := by
  have h1 := C9_require_role ["admin"] (some [("role", "level_1")])
  have h2 := C9_require_role ["admin", "level_1"] (some [("role", "level_1")])
  constructor
  · rcases h1.2 with hok | herr
    · exfalso
      rcases h1.1.mp hok with ⟨r, hr, hmem⟩
      have hr2 : (some "level_1" : Option String) = some r := hr
      cases hr2
      exact absurd hmem (by decide)
    · exact herr
  · exact h2.1.mpr ⟨"level_1", rfl, by decide⟩
